import Mathlib

/-
Verification of the MarketPulse dashboard (src/dashboard.py and
src/unnamed/part_000): a shallow embedding of its fetch/cache pipeline
and proofs of the specified properties.
-/

namespace Dashboard

/-! ## Refresh Cache Manager

Modelled from the spec: the TTL-based memoization is performed by the
external `st.cache_data` decorator, whose implementation is not part of
this repository; the spec's section 4.1 gives the `get_or_fetch`
contract that the decorators at src/dashboard.py lines 21, 41, 54, 70
and 78 rely on. -/

/-- Modelled from the spec: a cache entry holds the stored value, the
time it was stored, and its TTL in seconds; it is immutable once
stored and replaced wholesale on refresh. -/
structure CacheEntry (V : Type) where
  value : V
  storedAt : Nat
  ttlSeconds : Nat
deriving DecidableEq

/-- Modelled from the spec: an entry is valid iff `now - storedAt < ttlSeconds`. -/
def entryValid {V : Type} (now : Nat) (e : CacheEntry V) : Bool :=
  now - e.storedAt < e.ttlSeconds

/-- Result of one `get_or_fetch` step: the value returned to the caller
(`none` is the empty/error result), the cache table afterwards, and
whether the underlying fetch function was invoked. -/
structure FetchStep (K V : Type) where
  result : Option V
  cache : K → Option (CacheEntry V)
  invoked : Bool

/-- Modelled from the spec: `get_or_fetch(key, ttlSeconds, fetchFn)`.
If a valid (non-expired) entry exists for `key`, return its stored
value without invoking `fetchFn`. Otherwise invoke `fetchFn`; on
success store its result as a new entry with `storedAt = now` and
return it; on failure (`none`) do not cache the failure, return the
empty result and leave the table untouched. -/
def getOrFetch {K V : Type} [DecidableEq K]
    (cache : K → Option (CacheEntry V)) (now : Nat) (key : K)
    (ttlSeconds : Nat) (fetchFn : Unit → Option V) : FetchStep K V :=
  match cache key with
  | some e =>
      if entryValid now e then
        { result := some e.value, cache := cache, invoked := false }
      else
        match fetchFn () with
        | some v =>
            { result := some v
              cache := fun k => if k = key then some ⟨v, now, ttlSeconds⟩ else cache k
              invoked := true }
        | none => { result := none, cache := cache, invoked := true }
  | none =>
      match fetchFn () with
      | some v =>
          { result := some v
            cache := fun k => if k = key then some ⟨v, now, ttlSeconds⟩ else cache k
            invoked := true }
      | none => { result := none, cache := cache, invoked := true }

/-! ## fetch_crypto_data (src/dashboard.py lines 21-39)

The HTTP world is a map from a symbol to the response of
`GET /ticker/24hr?symbol=...`; per the spec's external-interface
contract, a response carries a status code and the provider's payload
fields. -/

/-- Payload of the crypto ticker provider for one symbol. -/
structure TickerData where
  symbol : String
  priceChangePercent : String
  lastPrice : String
  volume : String
  highPrice : String
  lowPrice : String
deriving DecidableEq

/-- One HTTP response from the crypto ticker provider. -/
structure TickerResponse where
  statusCode : Nat
  data : TickerData
deriving DecidableEq

/-- One row of the table built by `fetch_crypto_data`. -/
structure CryptoRow where
  Symbol : String
  Name : String
  PriceChangePercent : String
  LastPrice : String
  Volume : String
  HighPrice : String
  LowPrice : String
deriving DecidableEq

/-- The `crypto_names` lookup table from src/dashboard.py lines 128-135. -/
def crypto_names : List (String × String) :=
  [("BTCUSDT", "Bitcoin"), ("ETHUSDT", "Ethereum"), ("XRPUSDT", "Ripple"),
   ("SOLUSDT", "Solana"), ("ADAUSDT", "Cardano"), ("BNBUSDT", "Binance Coin")]

/-- The row appended for a symbol whose response had status 200
(src/dashboard.py lines 29-38). -/
def cryptoRowOf (symbol : String) (d : TickerData) : CryptoRow :=
  { Symbol := d.symbol
    Name := (crypto_names.lookup symbol).getD "N/A"
    PriceChangePercent := d.priceChangePercent ++ "%"
    LastPrice := d.lastPrice
    Volume := d.volume
    HighPrice := d.highPrice
    LowPrice := d.lowPrice }

/-- `fetch_crypto_data(crypto_symbols)`: loop over the symbols, request
the 24hr ticker for each, and append a row only when the response
status is 200 (src/dashboard.py lines 22-39). -/
def fetch_crypto_data (world : String → TickerResponse)
    (crypto_symbols : List String) : List CryptoRow :=
  crypto_symbols.foldl
    (fun results symbol =>
      let resp := world symbol
      if resp.statusCode = 200 then results ++ [cryptoRowOf symbol resp.data]
      else results)
    []

/-! ## fetch_english_finance_news (src/dashboard.py lines 78-122)

The sentiment scorer (TextBlob polarity) is the spec's external pure
function `text → polarity`, passed in as a parameter; Python's
3-decimal `round` (round half to even) is embedded over ℚ. -/

/-- Python's `round` on a rational: nearest integer, ties to even. -/
def pyRound (q : ℚ) : ℤ :=
  if q - ⌊q⌋ < 1 / 2 then ⌊q⌋
  else if 1 / 2 < q - ⌊q⌋ then ⌊q⌋ + 1
  else if ⌊q⌋ % 2 = 0 then ⌊q⌋ else ⌊q⌋ + 1

/-- Python's `round(q, 3)`. -/
def round3 (q : ℚ) : ℚ :=
  (pyRound (q * 1000) : ℚ) / 1000

/-- One raw article from the news provider: `description` is `none`
when the JSON field is null. -/
structure RawArticle where
  title : String
  description : Option String
  url : String
  sourceName : String
  publishedAt : String
deriving DecidableEq

/-- One HTTP response from the news provider. -/
structure NewsResponse where
  statusCode : Nat
  articles : List RawArticle
deriving DecidableEq

/-- One article dict built by `fetch_english_finance_news`
(src/dashboard.py lines 110-117). -/
structure ProcessedArticle where
  title : String
  description : Option String
  url : String
  source : String
  publishedAt : String
  sentiment : ℚ
deriving DecidableEq

/-- The text handed to the sentiment scorer:
`title + " " + (desc or "")` (src/dashboard.py line 103). -/
def articleContent (a : RawArticle) : String :=
  a.title ++ " " ++ a.description.getD ""

/-- The dict appended to `articles` for one selected raw article. -/
def processArticle (polarityOf : String → ℚ) (a : RawArticle) : ProcessedArticle :=
  { title := a.title
    description := a.description
    url := a.url
    source := a.sourceName
    publishedAt := a.publishedAt
    sentiment := round3 (polarityOf (articleContent a)) }

/-- `fetch_english_finance_news(api_key, max_articles=5)`: on a 200
response take the first `max_articles` articles, score each, and
average the raw polarities; otherwise return no articles and the
initial `avg_sentiment = 0.0` (src/dashboard.py lines 78-122). -/
def fetch_english_finance_news (polarityOf : String → ℚ) (resp : NewsResponse)
    (max_articles : Nat := 5) : List ProcessedArticle × ℚ :=
  if resp.statusCode = 200 then
    let selected := resp.articles.take max_articles
    let sentiments := selected.map (fun a => polarityOf (articleContent a))
    let articles := selected.map (processArticle polarityOf)
    let avg_sentiment : ℚ :=
      if sentiments.length ≠ 0 then sentiments.sum / (sentiments.length : ℚ) else 0
    (articles, avg_sentiment)
  else ([], 0)

/-! ## Cache TTL configuration (the st.cache_data decorators) -/

/-- The five cached fetch operations of src/dashboard.py. -/
inductive FetchKind where
  | cryptoData
  | cryptoHistorical
  | stockData
  | stockHistorical
  | financeNews
deriving DecidableEq

/-- The `ttl` argument of the `st.cache_data` decorator on each fetch
function (src/dashboard.py lines 21, 41, 54, 70, 78). -/
def cacheTTL : FetchKind → Nat
  | .cryptoData => 60
  | .cryptoHistorical => 60
  | .stockData => 60
  | .stockHistorical => 60
  | .financeNews => 120

/-! ## News & Sentiment tab (src/dashboard.py lines 225-254) -/

/-- What the News & Sentiment tab shows. -/
inductive NewsTabView where
  | infoPrompt (message : String)
  | articlesView (articles : List ProcessedArticle) (avg : ℚ)
  | noArticlesWarning (message : String)
deriving DecidableEq

/-- One activation of the tab: the view produced and whether the news
fetch was invoked. -/
structure NewsTabStep where
  view : NewsTabView
  fetchInvoked : Bool
deriving DecidableEq

/-- The News & Sentiment tab body: `if api_key:` (truthy iff the
string is non-empty) fetch and render, else show the informational
prompt without fetching (src/dashboard.py lines 230-254). -/
def news_sentiment_tab (api_key : String)
    (newsFetch : String → List ProcessedArticle × ℚ) : NewsTabStep :=
  if api_key ≠ "" then
    let r := newsFetch api_key
    if r.1 ≠ [] then
      { view := .articlesView r.1 r.2, fetchInvoked := true }
    else
      { view := .noArticlesWarning "No news articles found or invalid API key."
        fetchInvoked := true }
  else
    { view := .infoPrompt
        "Please enter your NewsAPI key to see the latest English financial news (stocks OR crypto)."
      fetchInvoked := false }

/-! ## Concrete instances used by the witnesses -/

/-- An initially empty cache table over string keys and natural values. -/
def demoCache0 : String → Option (CacheEntry Nat) := fun _ => none

/-- A cache table holding the entry `value 7, storedAt 0, ttl 60` at every key. -/
def demoCacheSeeded : String → Option (CacheEntry Nat) := fun _ => some ⟨7, 0, 60⟩

/-- A ticker world in which every request fails with status 404. -/
def demoFailWorld : String → TickerResponse := fun _ => ⟨404, ⟨"", "", "", "", "", ""⟩⟩

/-- The everywhere-neutral sentiment scorer. -/
def constPolarity : String → ℚ := fun _ => 0

/-- A 200 news response carrying six articles. -/
def demoNewsSix : NewsResponse :=
  ⟨200,
   [⟨"n1", some "d1", "u1", "s1", "p1"⟩, ⟨"n2", none, "u2", "s2", "p2"⟩,
    ⟨"n3", some "d3", "u3", "s3", "p3"⟩, ⟨"n4", none, "u4", "s4", "p4"⟩,
    ⟨"n5", some "d5", "u5", "s5", "p5"⟩, ⟨"n6", none, "u6", "s6", "p6"⟩]⟩

/-- A 200 news response carrying no articles. -/
def demoNewsEmpty : NewsResponse := ⟨200, []⟩

/-- A 200 news response on which rounded and raw sentiments diverge. -/
def divergeNews : NewsResponse :=
  ⟨200, [⟨"a", none, "", "s", ""⟩, ⟨"b", none, "", "s", ""⟩]⟩

/-- A sentiment scorer giving the first `divergeNews` article polarity
1/3, whose 3-decimal rounding is inexact. -/
def divergePolarity : String → ℚ := fun s => if s = "a " then 1 / 3 else 0

/-! ## Helper lemmas -/

lemma floor_le_of_le_int (q : ℚ) (n : ℤ) (h : q ≤ (n : ℚ)) : ⌊q⌋ ≤ n := by
  have := Int.floor_le_floor h
  simpa using this

lemma pyRound_le (n : ℤ) (q : ℚ) (h : q ≤ (n : ℚ)) : pyRound q ≤ n := by
  have hf : ⌊q⌋ ≤ n := floor_le_of_le_int q n h
  unfold pyRound
  split_ifs with h1 h2 h3
  · exact hf
  · have hq : (⌊q⌋ : ℚ) < q := by push_neg at h1; linarith
    have : ⌊q⌋ < n := by exact_mod_cast lt_of_lt_of_le hq h
    omega
  · exact hf
  · have hq : (⌊q⌋ : ℚ) < q := by push_neg at h1; linarith
    have : ⌊q⌋ < n := by exact_mod_cast lt_of_lt_of_le hq h
    omega

lemma le_pyRound (n : ℤ) (q : ℚ) (h : (n : ℚ) ≤ q) : n ≤ pyRound q := by
  have hf : n ≤ ⌊q⌋ := Int.le_floor.mpr h
  unfold pyRound
  split_ifs <;> omega

lemma round3_le_one (q : ℚ) (h : q ≤ 1) : round3 q ≤ 1 := by
  have h1000 : q * 1000 ≤ ((1000 : ℤ) : ℚ) := by push_cast; linarith
  have hp := pyRound_le 1000 (q * 1000) h1000
  unfold round3
  rw [div_le_one (by norm_num)]
  exact_mod_cast hp

lemma neg_one_le_round3 (q : ℚ) (h : -1 ≤ q) : -1 ≤ round3 q := by
  have h1000 : ((-1000 : ℤ) : ℚ) ≤ q * 1000 := by push_cast; linarith
  have hp := le_pyRound (-1000) (q * 1000) h1000
  unfold round3
  rw [le_div_iff₀ (by norm_num)]
  have h2 : ((-1000 : ℤ) : ℚ) ≤ (pyRound (q * 1000) : ℚ) := by exact_mod_cast hp
  push_cast at h2 ⊢
  linarith

lemma fetch_news_200 (polarityOf : String → ℚ) (resp : NewsResponse) (m : Nat)
    (h200 : resp.statusCode = 200) :
    fetch_english_finance_news polarityOf resp m
      = ((resp.articles.take m).map (processArticle polarityOf),
         if (resp.articles.take m).length ≠ 0 then
           ((resp.articles.take m).map fun a => polarityOf (articleContent a)).sum
             / ((resp.articles.take m).length : ℚ)
         else 0) := by
  simp [fetch_english_finance_news, h200]

lemma fetch_crypto_data_loop (world : String → TickerResponse)
    (symbols : List String) (acc : List CryptoRow) :
    symbols.foldl
      (fun results symbol =>
        let resp := world symbol
        if resp.statusCode = 200 then results ++ [cryptoRowOf symbol resp.data]
        else results) acc
      = acc ++ (symbols.filter fun s => (world s).statusCode = 200).map
          (fun s => cryptoRowOf s (world s).data) := by
  induction symbols generalizing acc with
  | nil => simp
  | cons s rest ih =>
      by_cases h : (world s).statusCode = 200
      · simp [List.foldl_cons, h, ih, List.filter_cons, List.append_assoc]
      · simp [List.foldl_cons, h, ih, List.filter_cons]

/-! ## Claim theorems -/

/-- Claim C1: for every key K, TTL T and fetch function F, a second
`get_or_fetch(K, T, F)` call issued before T seconds have elapsed
since the first call stored its entry does not invoke the fetch
function and returns the identical value stored by the first call. -/
theorem cache_hit_within_ttl {K V : Type} [DecidableEq K]
    (c0 : K → Option (CacheEntry V)) (k : K) (T t0 t1 : Nat) (v : V)
    (f1 f2 : Unit → Option V)
    (hstored : (getOrFetch c0 t0 k T f1).cache k = some ⟨v, t0, T⟩)
    (h01 : t0 ≤ t1) (hfresh : t1 - t0 < T) :
    (getOrFetch (getOrFetch c0 t0 k T f1).cache t1 k T f2).invoked = false ∧
    (getOrFetch (getOrFetch c0 t0 k T f1).cache t1 k T f2).result = some v := by
  have hvalid : entryValid t1 (⟨v, t0, T⟩ : CacheEntry V) = true := by
    simp [entryValid]; omega
  generalize hg : (getOrFetch c0 t0 k T f1).cache = c1 at hstored ⊢
  simp [getOrFetch, hstored, hvalid]

/-- Witness for C1: the second lookup of `"crypto:BTCUSDT,ETHUSDT"` at
t = 30 under TTL 60 serves the value 42 stored at t = 0 without
fetching. -/
theorem cache_hit_within_ttl_witness :
    ((getOrFetch demoCache0 0 "crypto:BTCUSDT,ETHUSDT" 60 (fun _ => some 42)).cache
        "crypto:BTCUSDT,ETHUSDT" = some ⟨42, 0, 60⟩) ∧
    0 ≤ 30 ∧ 30 - 0 < 60 ∧
    ((getOrFetch (getOrFetch demoCache0 0 "crypto:BTCUSDT,ETHUSDT" 60
          (fun _ => some 42)).cache 30 "crypto:BTCUSDT,ETHUSDT" 60
        (fun _ => some 99)).invoked = false ∧
     (getOrFetch (getOrFetch demoCache0 0 "crypto:BTCUSDT,ETHUSDT" 60
          (fun _ => some 42)).cache 30 "crypto:BTCUSDT,ETHUSDT" 60
        (fun _ => some 99)).result = some 42) :=
  ⟨rfl, by decide, by decide,
    cache_hit_within_ttl demoCache0 "crypto:BTCUSDT,ETHUSDT" 60 0 30 42
      (fun _ => some 42) (fun _ => some 99) rfl (by decide) (by decide)⟩

/-- Claim C2: a `get_or_fetch` call issued once T seconds have elapsed
since the existing entry was stored invokes the fetch function, stores
the new result as the entry for the key (replacing the prior entry
wholesale), and returns the new result. -/
theorem cache_refresh_after_ttl {K V : Type} [DecidableEq K]
    (c0 : K → Option (CacheEntry V)) (k : K) (T t0 t1 : Nat) (vold vnew : V)
    (f : Unit → Option V)
    (hentry : c0 k = some ⟨vold, t0, T⟩)
    (hexpired : T ≤ t1 - t0)
    (hfetch : f () = some vnew) :
    (getOrFetch c0 t1 k T f).invoked = true ∧
    (getOrFetch c0 t1 k T f).result = some vnew ∧
    (getOrFetch c0 t1 k T f).cache k = some ⟨vnew, t1, T⟩ := by
  have hinvalid : entryValid t1 (⟨vold, t0, T⟩ : CacheEntry V) = false := by
    simp [entryValid]; omega
  simp [getOrFetch, hentry, hinvalid, hfetch]

/-- Witness for C2: at t = 61 the entry stored at t = 0 under TTL 60
is expired; the call fetches 8, stores it with storedAt 61, and
returns it. -/
theorem cache_refresh_after_ttl_witness :
    demoCacheSeeded "crypto:BTCUSDT,ETHUSDT" = some ⟨7, 0, 60⟩ ∧
    60 ≤ 61 - 0 ∧
    ((getOrFetch demoCacheSeeded 61 "crypto:BTCUSDT,ETHUSDT" 60
        (fun _ => some 8)).invoked = true ∧
     (getOrFetch demoCacheSeeded 61 "crypto:BTCUSDT,ETHUSDT" 60
        (fun _ => some 8)).result = some 8 ∧
     (getOrFetch demoCacheSeeded 61 "crypto:BTCUSDT,ETHUSDT" 60
        (fun _ => some 8)).cache "crypto:BTCUSDT,ETHUSDT" = some ⟨8, 61, 60⟩) :=
  ⟨rfl, by decide,
    cache_refresh_after_ttl demoCacheSeeded "crypto:BTCUSDT,ETHUSDT" 60 0 61 7 8
      (fun _ => some 8) rfl (by decide) rfl⟩

/-- Claim C3: a failing fetch is never stored: the call returns the
empty result, the whole cache table (in particular the prior entry for
the key) is unchanged, and a call at a time at which that prior entry
is valid still returns its stored value without fetching. -/
theorem fetch_failure_preserves_cache {K V : Type} [DecidableEq K]
    (c0 : K → Option (CacheEntry V)) (k : K) (e : CacheEntry V)
    (T T2 t1 t2 : Nat) (f f2 : Unit → Option V)
    (hentry : c0 k = some e)
    (hexpired : entryValid t1 e = false)
    (hfail : f () = none)
    (hvalid2 : entryValid t2 e = true) :
    (getOrFetch c0 t1 k T f).result = none ∧
    (getOrFetch c0 t1 k T f).invoked = true ∧
    (getOrFetch c0 t1 k T f).cache = c0 ∧
    (getOrFetch (getOrFetch c0 t1 k T f).cache t2 k T2 f2).result = some e.value ∧
    (getOrFetch (getOrFetch c0 t1 k T f).cache t2 k T2 f2).invoked = false := by
  have hc : getOrFetch c0 t1 k T f
      = { result := none, cache := c0, invoked := true } := by
    simp [getOrFetch, hentry, hexpired, hfail]
  refine ⟨by rw [hc], by rw [hc], by rw [hc], ?_, ?_⟩ <;>
    rw [hc] <;> simp [getOrFetch, hentry, hvalid2]

/-- Witness for C3: the fetch failing at t = 61 leaves the entry
`value 7, storedAt 0, ttl 60` in place, and at t = 30 (when that entry
is valid) the stored 7 is still served without fetching. -/
theorem fetch_failure_preserves_cache_witness :
    demoCacheSeeded "stocks:AAPL" = some ⟨7, 0, 60⟩ ∧
    entryValid 61 (⟨7, 0, 60⟩ : CacheEntry Nat) = false ∧
    entryValid 30 (⟨7, 0, 60⟩ : CacheEntry Nat) = true ∧
    ((getOrFetch demoCacheSeeded 61 "stocks:AAPL" 60 (fun _ => none)).result = none ∧
     (getOrFetch demoCacheSeeded 61 "stocks:AAPL" 60 (fun _ => none)).invoked = true ∧
     (getOrFetch demoCacheSeeded 61 "stocks:AAPL" 60 (fun _ => none)).cache
       = demoCacheSeeded ∧
     (getOrFetch (getOrFetch demoCacheSeeded 61 "stocks:AAPL" 60
          (fun _ => none)).cache 30 "stocks:AAPL" 60 (fun _ => some 9)).result = some 7 ∧
     (getOrFetch (getOrFetch demoCacheSeeded 61 "stocks:AAPL" 60
          (fun _ => none)).cache 30 "stocks:AAPL" 60 (fun _ => some 9)).invoked = false) :=
  ⟨rfl, by decide, by decide,
    fetch_failure_preserves_cache demoCacheSeeded "stocks:AAPL" ⟨7, 0, 60⟩ 60 60 61 30
      (fun _ => none) (fun _ => some 9) rfl (by decide) rfl (by decide)⟩

/-- Claim C4: a `get_or_fetch` operation on one key (creation, refresh
or expiry, with any outcome of the fetch) leaves the cache entry of
every distinct key unchanged: keys never share or clobber each other's
entries. -/
theorem distinct_keys_frame {K V : Type} [DecidableEq K]
    (c0 : K → Option (CacheEntry V)) (k1 k2 : K) (t T : Nat) (f : Unit → Option V)
    (hne : k1 ≠ k2) :
    (getOrFetch c0 t k1 T f).cache k2 = c0 k2 := by
  have h21 : ¬ (k2 = k1) := fun h => hne h.symm
  rcases hco : c0 k1 with _ | e
  · rcases hf : f () with _ | v
    · simp [getOrFetch, hco, hf]
    · simp [getOrFetch, hco, hf, h21]
  · by_cases hv : entryValid t e
    · simp [getOrFetch, hco, hv]
    · rcases hf : f () with _ | v
      · simp [getOrFetch, hco, hv, hf]
      · simp [getOrFetch, hco, hv, hf, h21]

/-- Witness for C4: storing 42 under `"crypto:BTCUSDT"` leaves the
entry for `"stocks:AAPL"` unchanged. -/
theorem distinct_keys_frame_witness :
    ("crypto:BTCUSDT" : String) ≠ "stocks:AAPL" ∧
    (getOrFetch demoCache0 5 "crypto:BTCUSDT" 60 (fun _ => some 42)).cache "stocks:AAPL"
      = demoCache0 "stocks:AAPL" :=
  ⟨by decide,
    distinct_keys_frame demoCache0 "crypto:BTCUSDT" "stocks:AAPL" 5 60
      (fun _ => some 42) (by decide)⟩

/-- Claim C5: against a 200 feed of at least 5 articles and a scorer
bounded by [-1, 1], the news fetch with `max_articles = 5` returns
exactly 5 articles — the first 5 of the feed — each carrying a
sentiment in [-1, 1], and an aggregate equal to the arithmetic mean of
those 5 articles' polarity scores. -/
theorem news_top5_mean (polarityOf : String → ℚ) (resp : NewsResponse)
    (h200 : resp.statusCode = 200) (hlen : 5 ≤ resp.articles.length)
    (hrange : ∀ s, -1 ≤ polarityOf s ∧ polarityOf s ≤ 1) :
    (fetch_english_finance_news polarityOf resp 5).1.length = 5 ∧
    (fetch_english_finance_news polarityOf resp 5).1
      = (resp.articles.take 5).map (processArticle polarityOf) ∧
    (∀ a ∈ (fetch_english_finance_news polarityOf resp 5).1,
        -1 ≤ a.sentiment ∧ a.sentiment ≤ 1) ∧
    (fetch_english_finance_news polarityOf resp 5).2
      = ((resp.articles.take 5).map fun a => polarityOf (articleContent a)).sum / 5 := by
  have htake : (resp.articles.take 5).length = 5 := by
    simp [List.length_take]; omega
  rw [fetch_news_200 polarityOf resp 5 h200]
  refine ⟨?_, rfl, ?_, ?_⟩
  · simp
    omega
  · intro a ha
    simp only [List.mem_map] at ha
    obtain ⟨b, _, rfl⟩ := ha
    exact ⟨neg_one_le_round3 _ (hrange _).1, round3_le_one _ (hrange _).2⟩
  · rw [htake]
    norm_num

/-- Witness for C5: the six-article feed `demoNewsSix` with the
neutral scorer yields exactly the first five articles and their mean. -/
theorem news_top5_mean_witness :
    demoNewsSix.statusCode = 200 ∧ 5 ≤ demoNewsSix.articles.length ∧
    (∀ s, -1 ≤ constPolarity s ∧ constPolarity s ≤ 1) ∧
    ((fetch_english_finance_news constPolarity demoNewsSix 5).1.length = 5 ∧
     (fetch_english_finance_news constPolarity demoNewsSix 5).1
       = (demoNewsSix.articles.take 5).map (processArticle constPolarity) ∧
     (∀ a ∈ (fetch_english_finance_news constPolarity demoNewsSix 5).1,
         -1 ≤ a.sentiment ∧ a.sentiment ≤ 1) ∧
     (fetch_english_finance_news constPolarity demoNewsSix 5).2
       = ((demoNewsSix.articles.take 5).map
            fun a => constPolarity (articleContent a)).sum / 5) :=
  ⟨rfl, by decide, fun s => ⟨by simp [constPolarity], by simp [constPolarity]⟩,
    news_top5_mean constPolarity demoNewsSix rfl (by decide)
      (fun s => ⟨by simp [constPolarity], by simp [constPolarity]⟩)⟩

/-- Claim C6: a 200 response with zero articles makes the news fetch
return the empty article list and aggregate sentiment 0, not an
error. -/
theorem news_zero_articles (polarityOf : String → ℚ) (resp : NewsResponse) (m : Nat)
    (h200 : resp.statusCode = 200) (hempty : resp.articles = []) :
    fetch_english_finance_news polarityOf resp m = ([], 0) := by
  simp [fetch_english_finance_news, h200, hempty]

/-- Witness for C6: the empty 200 feed yields `([], 0)`. -/
theorem news_zero_articles_witness :
    demoNewsEmpty.statusCode = 200 ∧ demoNewsEmpty.articles = [] ∧
    fetch_english_finance_news constPolarity demoNewsEmpty 5 = ([], 0) :=
  ⟨rfl, rfl, news_zero_articles constPolarity demoNewsEmpty 5 rfl rfl⟩

/-- Claim C7: every price/quote/kline fetch operation carries a cache
TTL of 60 seconds and the news fetch a TTL of 120 seconds, as
configured by the `st.cache_data` decorators in the source. -/
theorem ttl_configuration :
    cacheTTL .cryptoData = 60 ∧ cacheTTL .cryptoHistorical = 60 ∧
    cacheTTL .stockData = 60 ∧ cacheTTL .stockHistorical = 60 ∧
    cacheTTL .financeNews = 120 := by
  decide

/-- Claim C8: with an empty API key the News & Sentiment tab never
invokes the news fetch and shows the informational awaiting-key
prompt, regardless of what the fetch would return. -/
theorem missing_api_key_skips_fetch (newsFetch : String → List ProcessedArticle × ℚ) :
    news_sentiment_tab "" newsFetch
      = { view := .infoPrompt
            "Please enter your NewsAPI key to see the latest English financial news (stocks OR crypto)."
          fetchInvoked := false } := by
  simp [news_sentiment_tab]

/-- Claim C9: `fetch_crypto_data` returns exactly one row per symbol
whose response had status 200, in input-list order (the filter of the
input list mapped to rows); non-200 symbols are silently omitted, so a
failure for every symbol yields the empty table rather than an error. -/
theorem crypto_rows_filter_status (world : String → TickerResponse)
    (symbols : List String) :
    fetch_crypto_data world symbols
      = (symbols.filter fun s => (world s).statusCode = 200).map
          (fun s => cryptoRowOf s (world s).data) ∧
    ((∀ s ∈ symbols, (world s).statusCode ≠ 200) →
      fetch_crypto_data world symbols = []) := by
  have hmain : fetch_crypto_data world symbols
      = (symbols.filter fun s => (world s).statusCode = 200).map
          (fun s => cryptoRowOf s (world s).data) := by
    unfold fetch_crypto_data
    rw [fetch_crypto_data_loop]
    simp
  refine ⟨hmain, fun hall => ?_⟩
  rw [hmain]
  have hnil : (symbols.filter fun s => (world s).statusCode = 200) = [] := by
    rw [List.filter_eq_nil_iff]
    intro s hs
    simpa using hall s hs
  rw [hnil]
  rfl

/-- Witness for C9: when both requested symbols answer 404 the table
is empty. -/
theorem crypto_rows_filter_status_witness :
    (∀ s ∈ (["BTCUSDT", "ETHUSDT"] : List String), (demoFailWorld s).statusCode ≠ 200) ∧
    fetch_crypto_data demoFailWorld ["BTCUSDT", "ETHUSDT"] = [] :=
  ⟨by decide,
    (crypto_rows_filter_status demoFailWorld ["BTCUSDT", "ETHUSDT"]).2 (by decide)⟩

/-- Claim C10: each returned article's sentiment field is the raw
polarity rounded to 3 decimal places while the aggregate is the mean
of the unrounded polarities, and on a concrete feed the aggregate
differs from the mean of the per-article sentiment fields as
displayed. -/
theorem news_sentiment_rounding (polarityOf : String → ℚ) (resp : NewsResponse)
    (m : Nat) (h200 : resp.statusCode = 200) :
    ((fetch_english_finance_news polarityOf resp m).1.map ProcessedArticle.sentiment
       = (resp.articles.take m).map fun a => round3 (polarityOf (articleContent a))) ∧
    ((fetch_english_finance_news polarityOf resp m).2
       = if (resp.articles.take m).length ≠ 0 then
           ((resp.articles.take m).map fun a => polarityOf (articleContent a)).sum
             / ((resp.articles.take m).length : ℚ)
         else 0) ∧
    ((fetch_english_finance_news divergePolarity divergeNews 5).2
       ≠ ((fetch_english_finance_news divergePolarity divergeNews 5).1.map
            ProcessedArticle.sentiment).sum
          / ((fetch_english_finance_news divergePolarity divergeNews 5).1.length : ℚ)) := by
  rw [fetch_news_200 polarityOf resp m h200]
  refine ⟨?_, rfl, ?_⟩
  · rw [List.map_map]
    rfl
  · rw [fetch_news_200 divergePolarity divergeNews 5 rfl]
    have ha : divergePolarity (articleContent ⟨"a", none, "", "s", ""⟩) = 1 / 3 := rfl
    have hb : divergePolarity (articleContent ⟨"b", none, "", "s", ""⟩) = 0 := rfl
    norm_num [divergeNews, ha, hb, processArticle, round3, pyRound]

/-- Witness for C10: on `divergeNews` the aggregate is 1/6 while the
mean of the displayed (3-decimal) sentiments is 333/2000. -/
theorem news_sentiment_rounding_witness :
    divergeNews.statusCode = 200 ∧
    (((fetch_english_finance_news divergePolarity divergeNews 5).1.map
        ProcessedArticle.sentiment
       = (divergeNews.articles.take 5).map
           fun a => round3 (divergePolarity (articleContent a))) ∧
     ((fetch_english_finance_news divergePolarity divergeNews 5).2
       = if (divergeNews.articles.take 5).length ≠ 0 then
           ((divergeNews.articles.take 5).map
               fun a => divergePolarity (articleContent a)).sum
             / ((divergeNews.articles.take 5).length : ℚ)
         else 0) ∧
     ((fetch_english_finance_news divergePolarity divergeNews 5).2
       ≠ ((fetch_english_finance_news divergePolarity divergeNews 5).1.map
            ProcessedArticle.sentiment).sum
          / ((fetch_english_finance_news divergePolarity divergeNews 5).1.length : ℚ))) :=
  ⟨rfl, news_sentiment_rounding divergePolarity divergeNews 5 rfl⟩

end Dashboard
